import Mathlib

/-!
Shallow embedding of `connection.go` from the `ssh` package (a libp2p-flavoured
fork of the Go SSH connection layer).  Byte slices are modelled with an explicit
heap of buffers: a slice value is a reference (`none` models the Go `nil`
slice), so that aliasing and defensive copying are observable.  Methods on
`sshConn` and `connection` are embedded in state-passing style: each takes the
receiver plus the heap and returns the result together with the (possibly
updated) receiver and heap.  The external collaborators that the file only
calls into (the libp2p `network.Stream`, the mux, the handshake transport, the
`Request` type and its `Reply` method) are modelled from the spec where this
file's behaviour depends on them.
-/

namespace Ssh

/-- A byte, modelled as a natural number. -/
abbrev Byte := Nat

/-- The contents of a byte slice. -/
abbrev Bytes := List Byte

/-- A slice reference: `none` models the Go `nil` slice, `some i` a slice
backed by buffer `i` of the heap. -/
abbrev Ref := Option Nat

/-- The heap of allocated byte buffers.  Buffer identity (the index) models
backing-storage identity of Go slices. -/
structure Heap where
  bufs : List Bytes
deriving DecidableEq, Repr

/-- Reading the contents a reference denotes.  The `nil` slice has length 0 and
no elements. -/
def Heap.read (h : Heap) : Ref → Bytes
  | none => []
  | some i => h.bufs.getD i []

/-- Mutating the buffer a reference points to (models a caller writing through
a returned slice).  Writing through `nil` is a no-op placeholder; the accessors
under scrutiny never return `nil`. -/
def Heap.write (h : Heap) (r : Ref) (v : Bytes) : Heap :=
  match r with
  | none => h
  | some i => ⟨h.bufs.set i v⟩

/-- Allocating a fresh buffer (models Go `make`): the new reference is distinct
from every reference valid in `h`. -/
def Heap.alloc (h : Heap) (v : Bytes) : Ref × Heap :=
  (some h.bufs.length, ⟨h.bufs ++ [v]⟩)

/-- A reference is valid in a heap when it is `nil` or in bounds. -/
def Heap.valid (h : Heap) : Ref → Prop
  | none => True
  | some i => i < h.bufs.length

instance (h : Heap) (r : Ref) : Decidable (h.valid r) := by
  cases r with
  | none => exact isTrue trivial
  | some i => exact Nat.decLt _ _

/-- Go `make([]byte, n)`: a zero-filled buffer of length `n`. -/
def byteMake (n : Nat) : Bytes := List.replicate (n : Nat) 0

/-- Go `copy(dst, src)` as a value: `min (len dst) (len src)` bytes of `src`
overwrite the prefix of `dst`, the rest of `dst` is kept. -/
def goCopy (dst src : Bytes) : Bytes :=
  src.take (min dst.length src.length) ++ dst.drop (min dst.length src.length)

/-- The value computed by the source's `dup`:
`dst := make([]byte, len(src)); copy(dst, src); return dst`. -/
def dupVal (src : Bytes) : Bytes := goCopy (byteMake src.length) src

/-- The source's `dup` helper on the heap model: it allocates a fresh buffer
holding a copy of the contents of `src`. -/
def dup (h : Heap) (src : Ref) : Ref × Heap :=
  h.alloc (dupVal (h.read src))

/-- Modelled from the spec: the enumerated channel-open rejection codes fixed
by the protocol (`RejectionReason` and its `String` rendering live outside this
source file). -/
inductive RejectionReason where
  | prohibited
  | connectionFailed
  | unknownChannelType
  | resourceShortage
deriving DecidableEq, Repr

/-- Modelled from the spec: the textual rendering of each rejection code. -/
def RejectionReason.render : RejectionReason → String
  | .prohibited => "administratively prohibited"
  | .connectionFailed => "connect failed"
  | .unknownChannelType => "unknown channel type"
  | .resourceShortage => "resource shortage"

/-- `OpenChannelError`, returned when the peer rejects an `OpenChannel`
request. -/
structure OpenChannelError where
  reason : RejectionReason
  message : String
deriving DecidableEq, Repr

/-- The source's `Error()` method:
`fmt.Sprintf("ssh: rejected: %s (%s)", e.Reason, e.Message)`. -/
def OpenChannelError.render (e : OpenChannelError) : String :=
  "ssh: rejected: " ++ e.reason.render ++ " (" ++ e.message ++ ")"

/-- Modelled from the spec: an out-of-band `Request` (name, opaque payload,
wantReply flag); the type itself is defined outside this source file. -/
structure Request where
  name : String
  wantReply : Bool
  payload : Option Bytes
deriving DecidableEq, Repr

/-- An observable event of the `DiscardRequests` loop: consuming a request
from the delivery stream, or calling `Reply` on a consumed request. -/
inductive Event where
  | consume (req : Request)
  | reply (ok : Bool) (payload : Option Bytes)
deriving DecidableEq, Repr

/-- Whether an event is a reply. -/
def Event.isReply : Event → Bool
  | .reply _ _ => true
  | .consume _ => false

/-- The source's `DiscardRequests`: the delivery stream is modelled as the
finite list of requests the producer delivers before closing the channel; the
result is the trace of events the loop performs, in order:
`for req := range in { if req.WantReply { req.Reply(false, nil) } }`. -/
def DiscardRequests : List Request → List Event
  | [] => []
  | req :: rest =>
    if req.wantReply then
      Event.consume req :: Event.reply false none :: DiscardRequests rest
    else
      Event.consume req :: DiscardRequests rest

/-- The requests consumed along a trace, in order. -/
def consumed (t : List Event) : List Request :=
  t.filterMap fun e =>
    match e with
    | Event.consume r => some r
    | Event.reply _ _ => none

/-- Spec-side discipline of a discard trace: each consumed request with
`wantReply = true` is answered by exactly one `reply false none` before
anything else happens; a consumed request with `wantReply = false` is followed
by no reply; there are no stray replies. -/
inductive WellReplied : List Event → Prop
  | nil : WellReplied []
  | noReply (r : Request) (rest : List Event) :
      r.wantReply = false → WellReplied rest →
      WellReplied (Event.consume r :: rest)
  | withReply (r : Request) (rest : List Event) :
      r.wantReply = true → WellReplied rest →
      WellReplied (Event.consume r :: Event.reply false none :: rest)

/-- A multi-protocol network address; its internal structure is irrelevant at
this layer, so it is modelled as an opaque-looking string value. -/
abbrev Multiaddr := String

/-- Modelled from the spec: the underlying stream's connection object
(`network.Stream.Conn()` in libp2p), which reports the query-time addresses of
both endpoints. -/
structure StreamConn where
  remoteMultiaddr : Multiaddr
  localMultiaddr : Multiaddr
deriving DecidableEq, Repr

/-- Modelled from the spec: the underlying addressable bidirectional stream
(`network.Stream`), exposing its connection object and a close flag. -/
structure Stream where
  conn : StreamConn
  closed : Bool
deriving DecidableEq, Repr

/-- The stream's `Conn()` accessor. -/
def Stream.Conn (s : Stream) : StreamConn := s.conn

/-- Modelled from the spec: the underlying stream's `Close`.  Closing marks
the stream closed and succeeds; a second close finds the stream already closed,
leaves it unchanged and returns a "stream closed" error cleanly (the spec
requires close to be idempotent and never to block or abort). -/
def Stream.close (s : Stream) : Stream × Option String :=
  if s.closed then (s, some "stream closed")
  else ({ s with closed := true }, none)

/-- The source's `sshConn`: net.Conn-style metadata over the stream, holding
the authenticated user and the session-identity byte slices (references into
the heap; `none` models a `nil` field). -/
structure sshConn where
  stream : Stream
  user : String
  sessionID : Ref
  clientVersion : Ref
  serverVersion : Ref
deriving DecidableEq, Repr

/-- `sshConn.User`: `return c.user`. -/
def sshConn.User (c : sshConn) (h : Heap) : String × sshConn × Heap :=
  (c.user, c, h)

/-- `sshConn.RemoteMultiaddr`: `return c.stream.Conn().RemoteMultiaddr()`. -/
def sshConn.RemoteMultiaddr (c : sshConn) (h : Heap) : Multiaddr × sshConn × Heap :=
  (c.stream.Conn.remoteMultiaddr, c, h)

/-- `sshConn.LocalMultiaddr`: `return c.stream.Conn().LocalMultiaddr()`. -/
def sshConn.LocalMultiaddr (c : sshConn) (h : Heap) : Multiaddr × sshConn × Heap :=
  (c.stream.Conn.localMultiaddr, c, h)

/-- `sshConn.Close`: `return c.stream.Close()`. -/
def sshConn.Close (c : sshConn) : sshConn × Option String :=
  let sc := c.stream.close
  ({ c with stream := sc.1 }, sc.2)

/-- `sshConn.SessionID`: `return dup(c.sessionID)`. -/
def sshConn.SessionID (c : sshConn) (h : Heap) : Ref × sshConn × Heap :=
  let rh := dup h c.sessionID
  (rh.1, c, rh.2)

/-- `sshConn.ClientVersion`: `return dup(c.clientVersion)`. -/
def sshConn.ClientVersion (c : sshConn) (h : Heap) : Ref × sshConn × Heap :=
  let rh := dup h c.clientVersion
  (rh.1, c, rh.2)

/-- `sshConn.ServerVersion`: `return dup(c.serverVersion)`. -/
def sshConn.ServerVersion (c : sshConn) (h : Heap) : Ref × sshConn × Heap :=
  let rh := dup h c.serverVersion
  (rh.1, c, rh.2)

/-- Modelled from the spec: the handshake transport collaborator, opaque at
this layer (the `connection` struct holds a reference to it and never touches
it in this file). -/
structure HandshakeTransport where
  id : Nat
deriving DecidableEq, Repr

/-- Modelled from the spec: the multiplexer collaborator, opaque at this layer
apart from an abstract teardown flag, used to observe that `Close` performs no
mux teardown. -/
structure Mux where
  torndown : Bool
deriving DecidableEq, Repr

/-- The source's `connection`: the handshake transport, the embedded
`sshConn`, and the mux. -/
structure connection where
  transport : HandshakeTransport
  sshConn : sshConn
  mux : Mux
deriving DecidableEq, Repr

/-- `connection.Close`: `return c.sshConn.stream.Close()`. -/
def connection.Close (c : connection) : connection × Option String :=
  let sc := c.sshConn.stream.close
  ({ c with sshConn := { c.sshConn with stream := sc.1 } }, sc.2)

/-! ### Helper lemmas about the heap and `dup` -/

theorem dupVal_eq (b : Bytes) : dupVal b = b := by
  simp [dupVal, goCopy, byteMake]

theorem Heap.read_alloc_of_valid (h : Heap) (v : Bytes) (r : Ref) (hv : h.valid r) :
    ((h.alloc v).2).read r = h.read r := by
  cases r with
  | none => rfl
  | some i => exact List.getD_append _ _ _ _ hv

theorem Heap.read_alloc_self (h : Heap) (v : Bytes) :
    ((h.alloc v).2).read (h.alloc v).1 = v := by
  show (h.bufs ++ [v]).getD h.bufs.length [] = v
  rw [List.getD_append_right _ _ _ _ (Nat.le_refl _), Nat.sub_self]
  rfl

theorem Heap.alloc_ne_of_valid (h : Heap) (v : Bytes) (r : Ref) (hv : h.valid r) :
    (h.alloc v).1 ≠ r := by
  cases r with
  | none => simp [Heap.alloc]
  | some i =>
    intro e
    have hi : h.bufs.length = i := Option.some.inj e
    subst hi
    exact Nat.lt_irrefl _ hv

theorem Heap.valid_alloc (h : Heap) (v : Bytes) (r : Ref) (hv : h.valid r) :
    ((h.alloc v).2).valid r := by
  cases r with
  | none => trivial
  | some i =>
    show i < (h.bufs ++ [v]).length
    simp only [List.length_append, List.length_cons, List.length_nil]
    exact Nat.lt_of_lt_of_le hv (Nat.le_add_right _ _)

theorem Heap.read_write_ne (h : Heap) (r r' : Ref) (v : Bytes) (hne : r' ≠ r) :
    (h.write r' v).read r = h.read r := by
  cases r' with
  | none => rfl
  | some j =>
    cases r with
    | none => rfl
    | some i =>
      show (h.bufs.set j v).getD i [] = h.bufs.getD i []
      have hij : j ≠ i := fun e => hne (by rw [e])
      simp [List.getD_eq_getElem?_getD, List.getElem?_set_ne hij]

theorem dup_read (h : Heap) (src : Ref) :
    ((dup h src).2).read (dup h src).1 = h.read src := by
  show ((h.alloc (dupVal (h.read src))).2).read (h.alloc (dupVal (h.read src))).1 = _
  rw [Heap.read_alloc_self, dupVal_eq]

theorem dup_fresh (h : Heap) (src : Ref) (hv : h.valid src) :
    (dup h src).1 ≠ src :=
  Heap.alloc_ne_of_valid h _ src hv

theorem dup_preserves (h : Heap) (src r : Ref) (hv : h.valid r) :
    ((dup h src).2).read r = h.read r :=
  Heap.read_alloc_of_valid h _ r hv

theorem dup_valid (h : Heap) (src r : Ref) (hv : h.valid r) :
    ((dup h src).2).valid r :=
  Heap.valid_alloc h _ r hv

theorem dup_write_frame (h : Heap) (src r : Ref) (v : Bytes) (hv : h.valid r) :
    (((dup h src).2).write (dup h src).1 v).read r = h.read r := by
  rw [Heap.read_write_ne ((dup h src).2) r ((dup h src).1) v
    (Heap.alloc_ne_of_valid h _ r hv)]
  exact dup_preserves h src r hv

theorem consumed_DiscardRequests (l : List Request) :
    consumed (DiscardRequests l) = l := by
  induction l with
  | nil => rfl
  | cons r rest ih =>
    cases hw : r.wantReply <;>
      simp only [DiscardRequests, hw, if_true, if_false, consumed,
        List.filterMap_cons] <;>
      simpa [consumed] using ih

/-- A concrete heap used to instantiate theorems with hypotheses. -/
def exHeap : Heap := { bufs := [[1, 2], [3], [4, 5, 6]] }

/-- A concrete stream used to instantiate theorems with hypotheses. -/
def exStream : Stream :=
  { conn := { remoteMultiaddr := "/ip4/1.2.3.4/tcp/22",
              localMultiaddr := "/ip4/5.6.7.8/tcp/2222" },
    closed := false }

/-- A concrete `sshConn` whose slice fields are all allocated. -/
def exConn : sshConn :=
  { stream := exStream, user := "alice",
    sessionID := some 0, clientVersion := some 1, serverVersion := some 2 }

/-- A concrete `sshConn` whose slice fields are all `nil`. -/
def exConnNil : sshConn :=
  { stream := exStream, user := "bob",
    sessionID := none, clientVersion := none, serverVersion := none }

/-! ### Claims -/

/-- C2: for every request delivery stream, `DiscardRequests` sends exactly one
reply — with acceptance `false` and empty payload — for each consumed request
whose `WantReply` is true, and that reply is sent before the next request is
consumed; for a consumed request with `WantReply` false it sends no reply.
`WellReplied` is the spec-side trace discipline; the count equation states the
"exactly one reply per want-reply request" part globally. -/
theorem claim2_discard_reply_discipline (l : List Request) :
    WellReplied (DiscardRequests l) ∧
    (DiscardRequests l).countP Event.isReply =
      l.countP (fun r => r.wantReply) := by
  induction l with
  | nil => exact ⟨WellReplied.nil, rfl⟩
  | cons r rest ih =>
    refine ⟨?_, ?_⟩
    · cases hw : r.wantReply with
      | true =>
        simpa [DiscardRequests, hw] using
          WellReplied.withReply r (DiscardRequests rest) hw ih.1
      | false =>
        simpa [DiscardRequests, hw] using
          WellReplied.noReply r (DiscardRequests rest) hw ih.1
    · cases hw : r.wantReply <;>
        simp [DiscardRequests, hw, List.countP_cons, Event.isReply, ih.2]

/-- C3 (counterexample): the claim that the rendering is exactly
`"rejected: <reason> (<message>)"` fails at reason "administratively
prohibited", message "no": the source prepends the package prefix `"ssh: "`. -/
theorem claim3_counterexample :
    OpenChannelError.render
        { reason := RejectionReason.prohibited, message := "no" } ≠
      "rejected: administratively prohibited (no)" := by
  decide

/-- C3 (amended): for every rejection reason and message, the textual
rendering of the channel-open rejection error is exactly
`"ssh: rejected: <reason> (<message>)"`; in particular reason
"administratively prohibited" with message "no" renders exactly
`"ssh: rejected: administratively prohibited (no)"`. -/
theorem claim3_rejection_rendering (reason : RejectionReason) (msg : String) :
    OpenChannelError.render { reason := reason, message := msg } =
      "ssh: rejected: " ++ reason.render ++ " (" ++ msg ++ ")" ∧
    OpenChannelError.render
        { reason := RejectionReason.prohibited, message := "no" } =
      "ssh: rejected: administratively prohibited (no)" :=
  ⟨rfl, by decide⟩

/-- C4: the `DiscardRequests` loop consumes exactly the requests the producer
delivers before closing the stream — every one of them, in order, and nothing
after the closure — and its consumption is not bounded by any fixed iteration
count: for every bound there is a stream longer than it that is still fully
consumed. -/
theorem claim4_discard_runs_until_close (l : List Request) :
    consumed (DiscardRequests l) = l ∧
    ∀ n : Nat, ∃ l' : List Request,
      n < l'.length ∧ consumed (DiscardRequests l') = l' :=
  ⟨consumed_DiscardRequests l,
   fun n =>
     ⟨List.replicate (n + 1) { name := "", wantReply := false, payload := none },
      by simp, consumed_DiscardRequests _⟩⟩

/-- C10: `dup` is total on every slice, including `nil`: it returns a buffer
whose contents (hence length) equal the source's, and the three buffer
accessors on an `sshConn` whose stored fields are `nil` return a zero-length
byte sequence. -/
theorem claim10_dup_total (h : Heap) (src : Ref) (c : sshConn)
    (hnil : c.sessionID = none ∧ c.clientVersion = none ∧
      c.serverVersion = none) :
    ((dup h src).2).read (dup h src).1 = h.read src ∧
    (((dup h src).2).read (dup h src).1).length = (h.read src).length ∧
    ((dup h none).2).read (dup h none).1 = [] ∧
    (c.SessionID h).2.2.read (c.SessionID h).1 = [] ∧
    (c.ClientVersion h).2.2.read (c.ClientVersion h).1 = [] ∧
    (c.ServerVersion h).2.2.read (c.ServerVersion h).1 = [] := by
  obtain ⟨h1, h2, h3⟩ := hnil
  refine ⟨dup_read h src, by rw [dup_read], by rw [dup_read]; rfl, ?_, ?_, ?_⟩
  · show ((dup h c.sessionID).2).read (dup h c.sessionID).1 = []
    rw [dup_read, h1]; rfl
  · show ((dup h c.clientVersion).2).read (dup h c.clientVersion).1 = []
    rw [dup_read, h2]; rfl
  · show ((dup h c.serverVersion).2).read (dup h c.serverVersion).1 = []
    rw [dup_read, h3]; rfl

/-- C10 witness: the totality theorem instantiated at a concrete heap and a
concrete connection whose slice fields are all `nil`. -/
theorem claim10_witness :
    (exConnNil.sessionID = none ∧ exConnNil.clientVersion = none ∧
      exConnNil.serverVersion = none) ∧
    (((dup exHeap (some 0)).2).read (dup exHeap (some 0)).1 =
        exHeap.read (some 0) ∧
      (((dup exHeap (some 0)).2).read (dup exHeap (some 0)).1).length =
        (exHeap.read (some 0)).length ∧
      ((dup exHeap none).2).read (dup exHeap none).1 = [] ∧
      (exConnNil.SessionID exHeap).2.2.read (exConnNil.SessionID exHeap).1 = [] ∧
      (exConnNil.ClientVersion exHeap).2.2.read
        (exConnNil.ClientVersion exHeap).1 = [] ∧
      (exConnNil.ServerVersion exHeap).2.2.read
        (exConnNil.ServerVersion exHeap).1 = []) :=
  ⟨by decide, claim10_dup_total exHeap (some 0) exConnNil (by decide)⟩

/-- The stored-slice contents of `c` read the same in `h'` as in `h`. -/
def fieldsPreserved (c : sshConn) (h h' : Heap) : Prop :=
  h'.read c.sessionID = h.read c.sessionID ∧
  h'.read c.clientVersion = h.read c.clientVersion ∧
  h'.read c.serverVersion = h.read c.serverVersion

/-- What it means for accessor `A` to hand out a defensive copy of the field
selected by `f`: the returned buffer has the stored contents but fresh backing
storage, mutating it leaves the stored field unchanged, and a subsequent call
to the same accessor after such a mutation still returns the original
contents. -/
def freshCopyAt (f : sshConn → Ref)
    (A : sshConn → Heap → Ref × sshConn × Heap) (c : sshConn) (h : Heap) :
    Prop :=
  ((A c h).2.2).read (A c h).1 = h.read (f c) ∧
  (A c h).1 ≠ f c ∧
  (∀ v : Bytes,
    (((A c h).2.2).write (A c h).1 v).read (f c) = h.read (f c)) ∧
  (∀ v : Bytes,
    ((A c (((A c h).2.2).write (A c h).1 v)).2.2).read
      (A c (((A c h).2.2).write (A c h).1 v)).1 = h.read (f c))

theorem dup_full_spec (h : Heap) (fc : Ref) (hv : h.valid fc) :
    ((dup h fc).2).read (dup h fc).1 = h.read fc ∧
    (dup h fc).1 ≠ fc ∧
    (∀ v : Bytes,
      (((dup h fc).2).write (dup h fc).1 v).read fc = h.read fc) ∧
    (∀ v : Bytes,
      ((dup (((dup h fc).2).write (dup h fc).1 v) fc).2).read
        (dup (((dup h fc).2).write (dup h fc).1 v) fc).1 = h.read fc) := by
  refine ⟨dup_read h fc, dup_fresh h fc hv,
    fun v => dup_write_frame h fc fc v hv, fun v => ?_⟩
  rw [dup_read (((dup h fc).2).write (dup h fc).1 v) fc]
  exact dup_write_frame h fc fc v hv

/-- C1: `SessionID`, `ClientVersion` and `ServerVersion` each return a buffer
equal in content to the stored field but backed by fresh, independently owned
storage: mutating the returned buffer alters neither the stored field nor the
result of a subsequent call to the same accessor. -/
theorem claim1_defensive_copies (c : sshConn) (h : Heap)
    (hs : h.valid c.sessionID) (hc : h.valid c.clientVersion)
    (hv : h.valid c.serverVersion) :
    freshCopyAt (fun x => x.sessionID) sshConn.SessionID c h ∧
    freshCopyAt (fun x => x.clientVersion) sshConn.ClientVersion c h ∧
    freshCopyAt (fun x => x.serverVersion) sshConn.ServerVersion c h :=
  ⟨dup_full_spec h c.sessionID hs, dup_full_spec h c.clientVersion hc,
   dup_full_spec h c.serverVersion hv⟩

/-- C1 witness: the defensive-copy theorem instantiated at a concrete heap and
connection with all three slice fields allocated. -/
theorem claim1_witness :
    (exHeap.valid exConn.sessionID ∧ exHeap.valid exConn.clientVersion ∧
      exHeap.valid exConn.serverVersion) ∧
    (freshCopyAt (fun x => x.sessionID) sshConn.SessionID exConn exHeap ∧
      freshCopyAt (fun x => x.clientVersion) sshConn.ClientVersion exConn exHeap ∧
      freshCopyAt (fun x => x.serverVersion) sshConn.ServerVersion exConn exHeap) :=
  ⟨⟨by decide, by decide, by decide⟩,
   claim1_defensive_copies exConn exHeap (by decide) (by decide) (by decide)⟩

/-- C6: calling `Close` a second time on the same `connection` produces no
second distinct side effect: the state after the second call equals the state
after the first, and the first call already leaves the stream closed.  The
call is a total function of the state, so it cannot block or abort. -/
theorem claim6_close_idempotent (c : connection) :
    (connection.Close (connection.Close c).1).1 = (connection.Close c).1 ∧
    ((connection.Close c).1).sshConn.stream.closed = true := by
  cases hc : c.sshConn.stream.closed <;>
    simp [connection.Close, Stream.close, hc]

/-- C7: the outer `connection.Close` and the embedded `sshConn.Close` are
observationally equivalent: the outer close is exactly the embedded close
lifted to the `connection` record — it returns the same error and updates only
the embedded `sshConn`'s stream, leaving the mux and the handshake transport
untouched. -/
theorem claim7_outer_close_refines_embedded (c : connection) :
    connection.Close c =
      ({ c with sshConn := (sshConn.Close c.sshConn).1 },
        (sshConn.Close c.sshConn).2) ∧
    (connection.Close c).1.mux = c.mux ∧
    (connection.Close c).1.transport = c.transport :=
  ⟨rfl, rfl, rfl⟩

/-- C8: `RemoteMultiaddr` and `LocalMultiaddr` return exactly what the
underlying stream's connection object reports at call time, with no local
caching: a changed address reported by the stream is reflected by the next
accessor call. -/
theorem claim8_addresses_delegate (c : sshConn) (h : Heap) (a a' : Multiaddr) :
    (c.RemoteMultiaddr h).1 = c.stream.Conn.remoteMultiaddr ∧
    (c.LocalMultiaddr h).1 = c.stream.Conn.localMultiaddr ∧
    (sshConn.RemoteMultiaddr
        { c with stream :=
            { c.stream with conn :=
                { c.stream.conn with remoteMultiaddr := a } } } h).1 = a ∧
    (sshConn.LocalMultiaddr
        { c with stream :=
            { c.stream with conn :=
                { c.stream.conn with localMultiaddr := a' } } } h).1 = a' :=
  ⟨rfl, rfl, rfl, rfl⟩

/-- C9: every metadata accessor is read-only and total: it returns the
receiver unchanged; `User` and the address accessors leave the heap untouched;
the buffer-copying accessors preserve the contents of all three stored slice
fields; and `User` returns the stored user string, also after another accessor
has run. -/
theorem claim9_accessors_readonly (c : sshConn) (h : Heap)
    (hs : h.valid c.sessionID) (hc : h.valid c.clientVersion)
    (hv : h.valid c.serverVersion) :
    (c.User h).2.1 = c ∧ (c.SessionID h).2.1 = c ∧
    (c.ClientVersion h).2.1 = c ∧ (c.ServerVersion h).2.1 = c ∧
    (c.RemoteMultiaddr h).2.1 = c ∧ (c.LocalMultiaddr h).2.1 = c ∧
    (c.User h).2.2 = h ∧ (c.RemoteMultiaddr h).2.2 = h ∧
    (c.LocalMultiaddr h).2.2 = h ∧
    fieldsPreserved c h (c.SessionID h).2.2 ∧
    fieldsPreserved c h (c.ClientVersion h).2.2 ∧
    fieldsPreserved c h (c.ServerVersion h).2.2 ∧
    (c.User h).1 = c.user ∧
    ((c.SessionID h).2.1.User (c.SessionID h).2.2).1 = (c.User h).1 :=
  ⟨rfl, rfl, rfl, rfl, rfl, rfl, rfl, rfl, rfl,
   ⟨dup_preserves h c.sessionID c.sessionID hs,
    dup_preserves h c.sessionID c.clientVersion hc,
    dup_preserves h c.sessionID c.serverVersion hv⟩,
   ⟨dup_preserves h c.clientVersion c.sessionID hs,
    dup_preserves h c.clientVersion c.clientVersion hc,
    dup_preserves h c.clientVersion c.serverVersion hv⟩,
   ⟨dup_preserves h c.serverVersion c.sessionID hs,
    dup_preserves h c.serverVersion c.clientVersion hc,
    dup_preserves h c.serverVersion c.serverVersion hv⟩,
   rfl, rfl⟩

/-- C9 witness: the read-only theorem instantiated at a concrete heap and
connection. -/
theorem claim9_witness :
    (exHeap.valid exConn.sessionID ∧ exHeap.valid exConn.clientVersion ∧
      exHeap.valid exConn.serverVersion) ∧
    ((exConn.User exHeap).2.1 = exConn ∧
      (exConn.SessionID exHeap).2.1 = exConn ∧
      (exConn.ClientVersion exHeap).2.1 = exConn ∧
      (exConn.ServerVersion exHeap).2.1 = exConn ∧
      (exConn.RemoteMultiaddr exHeap).2.1 = exConn ∧
      (exConn.LocalMultiaddr exHeap).2.1 = exConn ∧
      (exConn.User exHeap).2.2 = exHeap ∧
      (exConn.RemoteMultiaddr exHeap).2.2 = exHeap ∧
      (exConn.LocalMultiaddr exHeap).2.2 = exHeap ∧
      fieldsPreserved exConn exHeap (exConn.SessionID exHeap).2.2 ∧
      fieldsPreserved exConn exHeap (exConn.ClientVersion exHeap).2.2 ∧
      fieldsPreserved exConn exHeap (exConn.ServerVersion exHeap).2.2 ∧
      (exConn.User exHeap).1 = exConn.user ∧
      ((exConn.SessionID exHeap).2.1.User (exConn.SessionID exHeap).2.2).1 =
        (exConn.User exHeap).1) :=
  ⟨⟨by decide, by decide, by decide⟩,
   claim9_accessors_readonly exConn exHeap (by decide) (by decide) (by decide)⟩

end Ssh
